import Mathlib

set_option autoImplicit false

/-!
Verification development for the CityOfLosAngeles/sewer repository.

The repository holds two Airflow DAG scripts:
  * `dags/public-health/covid19/jhu-to-esri.py` — scrapes COVID-19 case data
    from JHU CSVs and several county health department pages, reshapes and
    merges it, and publishes it to two ESRI feature layers;
  * `dags/transportation/dockless/scooter-stat.py` — refreshes materialized
    views and computes daily scooter trip statistics.

Below, the data model and the operations of those scripts are embedded as
executable Lean definitions, and the behavioural properties of the spec are
settled as theorems about those definitions.
-/

/- ------------------------------------------------------------------ -/
/- Definitions                                                         -/
/- ------------------------------------------------------------------ -/

/-- Feature id for the county level time series layer (jhu-to-esri.py line 44). -/
def time_series_featureid : String := "d61924e1d8344a09a1298707cfff388c"

/-- Feature id for the county level current status layer (jhu-to-esri.py line 45). -/
def current_featureid : String := "523a372d71014bd491064d74e3eba2c7"

/-- Feature id for the state level time series layer (jhu-to-esri.py line 48). -/
def jhu_time_series_featureid : String := "20271474d3c3404d9c79bed0dbd48580"

/-- Feature id for the state level current status layer (jhu-to-esri.py line 49). -/
def jhu_current_featureid : String := "191df200230642099002039816dc8c59"

/-- Columns expected for the county level timeseries (jhu-to-esri.py lines 57-70). -/
def columns : List String :=
  ["state", "county", "date", "latitude", "longitude", "cases", "deaths",
   "recovered", "travel_based", "locally_acquired", "ca_total", "non_scag_total"]

/-- Strip every leading and trailing occurrence of a character from a string,
as Python's str.strip with a single-character argument does. -/
def stripChar (ch : Char) (s : String) : List Char :=
  ((s.toList.dropWhile (fun c => c = ch)).reverse.dropWhile
    (fun c => c = ch)).reverse

/-- Whether a character is a decimal digit. -/
def isDigitChar (c : Char) : Bool :=
  decide (48 ≤ c.toNat) && decide (c.toNat ≤ 57)

/-- Read a run of decimal digits, most significant first, into an accumulator;
none when a non-digit character appears. -/
def readDigits (acc : Nat) : List Char → Option Nat
  | [] => some acc
  | c :: cs =>
    if isDigitChar c then readDigits (10 * acc + (c.toNat - 48)) cs else none

/-- Read an optionally signed decimal integer, as Python's int() applied to a
string (the semantics of locale.atoi under the default C locale, where the
thousands separator is empty); an empty or malformed input raises ValueError,
embedded here as none. -/
def readInt : List Char → Option Int
  | [] => none
  | c :: cs =>
    if c = Char.ofNat 45 then
      match cs with
      | [] => none
      | _ => (readDigits 0 cs).map (fun n => -(n : Int))
    else if c = Char.ofNat 43 then
      match cs with
      | [] => none
      | _ => (readDigits 0 cs).map (fun n => (n : Int))
    else (readDigits 0 (c :: cs)).map (fun n => (n : Int))

/-- jhu-to-esri.py lines 73-79: numeric-string reader; strips asterisks from
both ends of the string, then reads it as a decimal integer. -/
def atoi (s : String) : Option Int :=
  readInt (stripChar (Char.ofNat 42) s)

/-- jhu-to-esri.py lines 82-96: split the column list of a dataframe into
non-date columns (id_vars) and date columns, where a column counts as a date
column exactly when its name ends with "20". The source loops over the columns
in order, appending to one of two lists. -/
def parse_columns : List String → List String × List String
  | [] => ([], [])
  | c :: cs =>
    let p := parse_columns cs
    if c.endsWith "20" then (p.1, c :: p.2) else (c :: p.1, p.2)

/-- Truncation of a rational toward zero, as Python's int() applied to a float. -/
def truncRat (q : ℚ) : ℤ := Int.tdiv q.num (q.den : ℤ)

/-- jhu-to-esri.py lines 107-108: `integrify` maps a NaN cell (the null marker
of a nullable numeric column, embedded as none) to None and any other cell x to
int(float(x)). -/
def integrify : Option ℚ → Option ℤ
  | none => none
  | some q => some (truncRat q)

/-- One row of the county level timeseries, with the columns of the documented
schema (jhu-to-esri.py lines 57-70). Numeric count columns are nullable. -/
structure CountyRow where
  state : String
  county : String
  date : Int
  latitude : ℚ
  longitude : ℚ
  cases : Option ℚ
  deaths : Option ℚ
  recovered : Option ℚ
  travel_based : Option ℚ
  locally_acquired : Option ℚ
  ca_total : Option ℚ
  non_scag_total : Option ℚ
deriving DecidableEq

/-- A county row after integer coercion of the nullable count columns. -/
structure CountyRowInt where
  state : String
  county : String
  date : Int
  latitude : ℚ
  longitude : ℚ
  cases : Option ℤ
  deaths : Option ℤ
  recovered : Option ℤ
  travel_based : Option ℤ
  locally_acquired : Option ℤ
  ca_total : Option ℤ
  non_scag_total : Option ℤ
deriving DecidableEq

/-- jhu-to-esri.py lines 99-120: apply `integrify` to each of the seven
nullable count columns, leaving the other columns unchanged. -/
def coerce_integer (r : CountyRow) : CountyRowInt :=
  { state := r.state
    county := r.county
    date := r.date
    latitude := r.latitude
    longitude := r.longitude
    cases := integrify r.cases
    deaths := integrify r.deaths
    recovered := integrify r.recovered
    travel_based := integrify r.travel_based
    locally_acquired := integrify r.locally_acquired
    ca_total := integrify r.ca_total
    non_scag_total := integrify r.non_scag_total }

/-- pandas drop_duplicates with keep="last" on key `key`: a row at position i
is kept exactly when no later row has the same key, so each key keeps its last
occurrence, rows staying in their original relative order. -/
def drop_duplicates_keep_last {α κ : Type} [DecidableEq κ] (key : α → κ) :
    List α → List α
  | [] => []
  | x :: xs =>
    if xs.any (fun y => decide (key y = key x)) then
      drop_duplicates_keep_last key xs
    else
      x :: drop_duplicates_keep_last key xs

/-- The deduplication key of the county merge: the (date, county) pair
(jhu-to-esri.py line 517, subset=["date", "county"]). -/
def countyRowKey (r : CountyRow) : Int × String := (r.date, r.county)

/-- jhu-to-esri.py lines 515-518: append the freshly scraped county records to
the previously published records and deduplicate by (date, county), keeping
the last occurrence. -/
def merge_county_data (prev scraped : List CountyRow) : List CountyRow :=
  drop_duplicates_keep_last countyRowKey (prev ++ scraped)

/-- A sample historical county row for concrete evaluation. -/
def sampleHistoricalRow : CountyRow :=
  { state := "CA", county := "Los Angeles", date := 0, latitude := 34,
    longitude := -118, cases := some 27, deaths := some 1, recovered := none,
    travel_based := none, locally_acquired := none, ca_total := none,
    non_scag_total := none }

/-- A freshly scraped county row with the same (date, county) key as the
sample historical row but a newer cases count. -/
def sampleScrapedRow : CountyRow :=
  { sampleHistoricalRow with cases := some 30 }

/-- Cumulative number of days before each month of 2020, a leap year. -/
def daysBeforeMonth2020 : Nat → Nat
  | 1 => 0
  | 2 => 31
  | 3 => 60
  | 4 => 91
  | 5 => 121
  | 6 => 152
  | 7 => 182
  | 8 => 213
  | 9 => 244
  | 10 => 274
  | 11 => 305
  | 12 => 335
  | _ => 0

/-- Length of each month of 2020. -/
def monthLength2020 : Nat → Nat
  | 1 => 31
  | 2 => 29
  | 3 => 31
  | 4 => 30
  | 5 => 31
  | 6 => 30
  | 7 => 31
  | 8 => 31
  | 9 => 30
  | 10 => 31
  | 11 => 30
  | 12 => 31
  | _ => 0

/-- One-based day of year 2020 of a (month, day) pair. -/
def dayOfYear2020 (m d : Nat) : Nat := daysBeforeMonth2020 m + d

/-- Whether a (month, day) pair names a calendar day of 2020. -/
def validDate2020 (m d : Nat) : Prop :=
  1 ≤ m ∧ m ≤ 12 ∧ 1 ≤ d ∧ d ≤ monthLength2020 m

/-- Whether US/Pacific is on daylight saving time at local midnight of the
given 2020 date. In 2020 daylight time runs from 02:00 local on March 8 (day
68 of the year) to 02:00 local on November 1 (day 306), so local midnight is
on daylight time for days strictly after March 8 and up to November 1. This
models the tz database rules that pandas applies in
tz_localize("US/Pacific") (jhu-to-esri.py lines 54 and 216-227). -/
def pdtAtMidnight2020 (m d : Nat) : Bool :=
  decide (68 < dayOfYear2020 m d) && decide (dayOfYear2020 m d ≤ 306)

/-- UTC offset of US/Pacific, in minutes, at local midnight of a 2020 date:
-420 (UTC-7) on daylight time, -480 (UTC-8) on standard time. -/
def pacificOffsetMinutes2020 (m d : Nat) : Int :=
  if pdtAtMidnight2020 m d then -420 else -480

/-- The UTC instant of local midnight of a 2020 date, in minutes on a linear
clock whose origin is midnight UTC of an epoch day: tz_localize at local
midnight followed by tz_convert to UTC subtracts the zone offset from the
local wall-clock time (jhu-to-esri.py lines 221-224). -/
def utcOfLocalMidnight2020 (m d : Nat) : Int :=
  (dayOfYear2020 m d : Int) * 1440 - pacificOffsetMinutes2020 m d

/-- The time-of-day component, in minutes, of the UTC instant that local
midnight of a 2020 date maps to. -/
def utcTimeOfDay2020 (m d : Nat) : Int := utcOfLocalMidnight2020 m d % 1440

instance validDate2020_decidable (m d : Nat) : Decidable (validDate2020 m d) := by
  unfold validDate2020
  infer_instance

/-- A wide-format JHU table: one key per row, one column per date, and the
cell value of row i in the column named c. -/
structure WideTable where
  keys : List String
  dates : List String
  val : Nat → String → Int

/-- Concatenation of the lists produced for each element of a list. -/
def concatMap {α β : Type} (f : α → List β) : List α → List β
  | [] => []
  | a :: as => f a ++ concatMap f as

/-- pandas pd.melt with the given value columns (jhu-to-esri.py lines
134-146): the output stacks one block per value column, in value-column
order; each block has one row per input row, in input row order, carrying the
row key, the column name and the cell value. -/
def melt (t : WideTable) (value_vars : List String) :
    List (String × String × Int) :=
  concatMap
    (fun c => (List.range t.keys.length).map
      (fun i => (t.keys.getD i "", c, t.val i c)))
    value_vars

/-- jhu-to-esri.py lines 123-152: melt the cases table over its own date
columns, melt deaths over its own date columns, melt recovered over the date
columns of the deaths table (line 143 reuses parse_columns of deaths), then
attach the deaths and recovered value columns to the melted cases frame by
position. Output rows are (key, date, cases, deaths, recovered). -/
def load_jhu_time_series (cs ds rs : WideTable) :
    List (String × String × Int × Int × Int) :=
  let cdf := melt cs cs.dates
  let ddf := melt ds ds.dates
  let rdf := melt rs ds.dates
  (cdf.zip (ddf.zip rdf)).map
    (fun p => (p.1.1, p.1.2.1, p.1.2.2, p.2.1.2.2, p.2.2.2.2))

/-- A one-row, one-date cases table for concrete evaluation (the JHU value
asserted at jhu-to-esri.py lines 199-204). -/
def wtCases : WideTable :=
  { keys := ["Los Angeles, CA"], dates := ["3/11/20"], val := fun _ _ => 27 }

/-- A one-row, one-date deaths table for concrete evaluation (the JHU value
asserted at jhu-to-esri.py lines 205-210). -/
def wtDeaths : WideTable :=
  { keys := ["Los Angeles, CA"], dates := ["3/11/20"], val := fun _ _ => 1 }

/-- A one-row, one-date recovered table for concrete evaluation. -/
def wtRecovered : WideTable :=
  { keys := ["Los Angeles, CA"], dates := ["3/11/20"], val := fun _ _ => 0 }

/-- Outcome of a call into an external service: it either returns or raises. -/
inductive CallOutcome
  | ok
  | raise
deriving DecidableEq

/-- One step of the publish tail of a load job: overwrite a remote feature
layer from a temporary file, or os.remove a temporary file. -/
inductive PubStep
  | overwrite (file : String)
  | removeFile (file : String)

/-- Python sequential execution of a publish tail: steps run in order, and a
raising overwrite aborts the rest of the function, since the load jobs install
no handler around these calls. Returns the files whose overwrite call was
made, the files removed, and whether an exception escaped. -/
def runPubSteps (outcome : String → CallOutcome) :
    List PubStep → List String × List String × Bool
  | [] => ([], [], false)
  | PubStep.overwrite f :: rest =>
    match outcome f with
    | CallOutcome.ok =>
      let r := runPubSteps outcome rest
      (f :: r.1, r.2.1, r.2.2)
    | CallOutcome.raise => ([f], [], true)
  | PubStep.removeFile f :: rest =>
    let r := runPubSteps outcome rest
    (r.1, f :: r.2.1, r.2.2)

/-- The publish tail shared by load_state_covid_data (jhu-to-esri.py lines
486-497) and load_county_covid_data (lines 537-548): overwrite the
time-series layer from the first file, overwrite the current-snapshot layer
from the second file, then os.remove both files, with no status check and no
handler. -/
def publish_tail (f1 f2 : String) : List PubStep :=
  [PubStep.overwrite f1, PubStep.overwrite f2,
   PubStep.removeFile f1, PubStep.removeFile f2]

/-- The six county fetchers, in source order (jhu-to-esri.py lines 424-458). -/
def countyFetchers : List String :=
  ["Los Angeles", "Imperial", "Orange", "San Bernardino", "Riverside",
   "Ventura"]

/-- One pass of the fetcher loop of scrape_county_public_health_data: call
each fetcher of the list once, in order, inside its own try/except; a success
appends the scraped record, a failure appends a warning log entry and the
loop continues with the next fetcher; nothing is retried. `fetch c = none`
models fetcher c raising. Returns (records, warnings, fetchers invoked). -/
def scrape_county_loop {α : Type} (fetch : String → Option α) :
    List String → List α × List String × List String
  | [] => ([], [], [])
  | c :: cs =>
    let r := scrape_county_loop fetch cs
    match fetch c with
    | some x => (x :: r.1, r.2.1, c :: r.2.2)
    | none => (r.1, c :: r.2.1, c :: r.2.2)

/-- jhu-to-esri.py lines 417-461: run the fetcher loop over the six county
fetchers. -/
def scrape_county_public_health_data {α : Type} (fetch : String → Option α) :
    List α × List String × List String :=
  scrape_county_loop fetch countyFetchers

/-- Sequential execution of the top level jobs. With `caught` true each job
runs inside its own try/except that logs and swallows the failure, as in
load_data (jhu-to-esri.py lines 551-562); with `caught` false a raising job
aborts the sequence. Returns how many jobs were started and whether an
exception escaped. -/
def run_jobs (caught : Bool) : List CallOutcome → Nat × Bool
  | [] => (0, false)
  | o :: rest =>
    if o = CallOutcome.raise ∧ caught = false then (1, true)
    else
      let r := run_jobs caught rest
      (r.1 + 1, r.2)

/-- jhu-to-esri.py lines 551-562: run the county job then the state job, each
inside its own try/except. -/
def load_data (county state : CallOutcome) : Nat × Bool :=
  run_jobs true [county, state]

/-- pandas DataFrame.append with sort=False at the column level: the columns
of the left frame, followed by the columns of the right frame not already
present. -/
def appendColumns (a b : List String) : List String :=
  a ++ b.filter (fun c => !a.contains c)

/-- Keys of the records returned by the county scrapers (jhu-to-esri.py lines
253-264, 277-288, 309-320, 331-342, 372-383, 403-414; every scraper returns
the same ten keys). -/
def scraperRecordKeys : List String :=
  ["state", "county", "latitude", "longitude", "date", "cases", "deaths",
   "recovered", "travel_based", "locally_acquired"]

/-- Column list of the frame returned by scrape_county_public_health_data: an
empty frame with the schema columns (jhu-to-esri.py line 421) with the
scraped records appended (line 460). -/
def scrapedFrameColumns : List String := appendColumns columns scraperRecordKeys

/-- The columns read by coerce_integer (jhu-to-esri.py lines 110-118). -/
def coerceIntegerColumns : List String :=
  ["cases", "deaths", "recovered", "travel_based", "locally_acquired",
   "ca_total", "non_scag_total"]

/-- The dataframe-shaping steps of the county job, at the column level. -/
inductive CountyStep
  | mergeScraped
  | coerceIntegers
  | assignTotals
  | selectColumn (c : String)
  | writeCsv (f : String)
  | overwriteLayer (fid : String)
  | removeFile (f : String)

/-- Column-level state of a county job run: the current column list, the CSV
files written so far, and the feature layers overwritten so far. -/
structure CountyRunState where
  cols : List String
  written : List String
  overwritten : List String

/-- One step of the county job. mergeScraped is the append of the scraped
frame (jhu-to-esri.py line 516; drop_duplicates and reset_index leave the
columns unchanged); coerceIntegers reads its seven columns and raises
KeyError when one is missing; assignTotals adds the two placeholder total
columns (line 523); selectColumn is a column subscript, raising KeyError when
the column is absent (line 527); the remaining steps write a CSV, overwrite a
layer, or remove a file. -/
def runCountyStep (s : CountyRunState) :
    CountyStep → Except String CountyRunState
  | CountyStep.mergeScraped =>
    Except.ok { s with cols := appendColumns s.cols scrapedFrameColumns }
  | CountyStep.coerceIntegers =>
    if coerceIntegerColumns.all (fun c => s.cols.contains c) then Except.ok s
    else Except.error "KeyError"
  | CountyStep.assignTotals =>
    Except.ok { s with cols := appendColumns s.cols ["ca_total", "non_scag_total"] }
  | CountyStep.selectColumn c =>
    if s.cols.contains c then Except.ok s
    else Except.error ("KeyError: " ++ c)
  | CountyStep.writeCsv f => Except.ok { s with written := s.written ++ [f] }
  | CountyStep.overwriteLayer fid =>
    Except.ok { s with overwritten := s.overwritten ++ [fid] }
  | CountyStep.removeFile _ => Except.ok s

/-- Python sequential execution of county job steps: a raised error aborts the
remaining steps and escapes. -/
def runCountySteps (s : CountyRunState) :
    List CountyStep → CountyRunState × Option String
  | [] => (s, none)
  | st :: rest =>
    match runCountyStep s st with
    | Except.ok s2 => runCountySteps s2 rest
    | Except.error e => (s, some e)

/-- jhu-to-esri.py lines 500-548: the county job after GIS login, starting
from the previously published layer with the given columns: merge the scraped
frame (lines 514-520), coerce integers (line 519), assign the placeholder
totals (line 523), subscript the number_of_cases column (line 527), write the
two CSVs (lines 529-535), overwrite the two layers (lines 537-544), and
remove the two files (lines 546-548). -/
def load_county_covid_data (prevCols : List String) :
    CountyRunState × Option String :=
  runCountySteps { cols := prevCols, written := [], overwritten := [] }
    [CountyStep.mergeScraped, CountyStep.coerceIntegers,
     CountyStep.assignTotals, CountyStep.selectColumn "number_of_cases",
     CountyStep.writeCsv "/tmp/covid19_time_series.csv",
     CountyStep.writeCsv "/tmp/covid19_current.csv",
     CountyStep.overwriteLayer time_series_featureid,
     CountyStep.overwriteLayer current_featureid,
     CountyStep.removeFile "/tmp/covid19_time_series.csv",
     CountyStep.removeFile "/tmp/covid19_current.csv"]

/-- The attributes of the pandas module namespace that this repository
touches. The pandas public API provides read_sql and defines no attribute
real_sql. -/
def pandasAttrs : List String :=
  ["read_csv", "read_html", "melt", "isna", "to_datetime", "to_numeric",
   "DataFrame", "Timestamp", "read_sql"]

/-- The statements of the scooter computing_stats task body. -/
inductive ScooterStep
  | logInfo (msg : String)
  | createEngine
  | bindLocal (var : String) (moduleAttr : String) (query : String)
  | xcomPush (k : String) (v : String)
  | returnValue (v : String)

/-- scooter-stat.py lines 60-71: the body of set_xcom_variables for the run
dates (yesterday, today): two logging calls, a lazy sqlalchemy create_engine
call (which opens no connection and issues no query), and the binding of the
local variable trips to the result of calling the real_sql attribute of the
pandas module on the trips query; no xcom push and no return statement
follow. -/
def set_xcom_variables (yesterday today : String) : List ScooterStep :=
  [ScooterStep.logInfo "Connecting to DB",
   ScooterStep.logInfo "Logging into postgres",
   ScooterStep.createEngine,
   ScooterStep.bindLocal "trips" "real_sql"
     ("SELECT * FROM TRIPS WHERE end_time BETWEEN " ++ yesterday ++ " AND "
       ++ today)]

/-- Effect state of a scooter task run: the queries issued against the
database and the xcom values pushed. -/
structure ScooterRunState where
  queries : List String
  pushes : List (String × String)

/-- One statement of the scooter task. Evaluating a module attribute that the
module does not define raises AttributeError before any call happens, so a
bindLocal whose attribute is missing issues no query. -/
def runScooterStep (s : ScooterRunState) :
    ScooterStep → Except String ScooterRunState
  | ScooterStep.logInfo _ => Except.ok s
  | ScooterStep.createEngine => Except.ok s
  | ScooterStep.bindLocal _ attr q =>
    if pandasAttrs.contains attr then
      Except.ok { s with queries := s.queries ++ [q] }
    else
      Except.error ("AttributeError: module pandas has no attribute " ++ attr)
  | ScooterStep.xcomPush k v => Except.ok { s with pushes := s.pushes ++ [(k, v)] }
  | ScooterStep.returnValue _ => Except.ok s

/-- Python sequential execution of the scooter task body: a raised error
aborts the remaining statements and escapes. -/
def runScooterSteps (s : ScooterRunState) :
    List ScooterStep → ScooterRunState × Option String
  | [] => (s, none)
  | st :: rest =>
    match runScooterStep s st with
    | Except.ok s2 => runScooterSteps s2 rest
    | Except.error e => (s, some e)

/-- Whether a statement publishes a value out of the task (an xcom push or a
return). -/
def isPushOrReturn : ScooterStep → Bool
  | ScooterStep.xcomPush _ _ => true
  | ScooterStep.returnValue _ => true
  | _ => false

/- ------------------------------------------------------------------ -/
/- Helper lemmas                                                       -/
/- ------------------------------------------------------------------ -/

section KeepLastLemmas

variable {α κ : Type} [DecidableEq κ] (key : α → κ)

theorem keepLast_countP (l : List α) (k : κ) :
    (drop_duplicates_keep_last key l).countP (fun x => decide (key x = k)) =
      if l.any (fun x => decide (key x = k)) then 1 else 0 := by
  induction l with
  | nil => simp [drop_duplicates_keep_last]
  | cons x xs ih =>
    by_cases hc : xs.any (fun y => decide (key y = key x)) = true
    · rw [drop_duplicates_keep_last, if_pos hc, ih]
      by_cases hk : key x = k
      · subst hk
        simp only [List.any_cons, decide_eq_true_eq, hc]
        simp
      · simp [List.any_cons, hk]
    · rw [drop_duplicates_keep_last, if_neg hc]
      by_cases hk : key x = k
      · subst hk
        have hzero : xs.any (fun y => decide (key y = key x)) = false := by
          simpa using hc
        rw [List.countP_cons, ih]
        simp [hzero]
      · rw [List.countP_cons, ih]
        simp [List.any_cons, hk]

theorem keepLast_find (l : List α) (k : κ) :
    (drop_duplicates_keep_last key l).find? (fun x => decide (key x = k)) =
      (l.filter (fun x => decide (key x = k))).getLast? := by
  induction l with
  | nil => simp [drop_duplicates_keep_last]
  | cons x xs ih =>
    by_cases hc : xs.any (fun y => decide (key y = key x)) = true
    · rw [drop_duplicates_keep_last, if_pos hc]
      by_cases hk : key x = k
      · subst hk
        have hne : xs.filter (fun y => decide (key y = key x)) ≠ [] := by
          rcases List.any_eq_true.mp hc with ⟨y, hy, hky⟩
          intro hnil
          have : y ∈ xs.filter (fun y => decide (key y = key x)) :=
            List.mem_filter.mpr ⟨hy, hky⟩
          rw [hnil] at this
          exact (List.not_mem_nil y) this
        rw [ih]
        rw [List.filter_cons_of_pos (by simp)]
        rcases hf : xs.filter (fun y => decide (key y = key x)) with _ | ⟨a, as⟩
        · exact absurd hf hne
        · rw [List.getLast?_cons_cons]
      · rw [ih, List.filter_cons_of_neg (by simpa using hk)]
    · rw [drop_duplicates_keep_last, if_neg hc]
      by_cases hk : key x = k
      · subst hk
        rw [List.find?_cons_of_pos _ (by simp)]
        have hnil : xs.filter (fun y => decide (key y = key x)) = [] := by
          rw [List.filter_eq_nil_iff]
          intro a ha
          intro hcontra
          exact hc (List.any_eq_true.mpr ⟨a, ha, hcontra⟩)
        rw [List.filter_cons_of_pos (by simp), hnil]
        rfl
      · rw [List.find?_cons_of_neg _ (by simpa using hk), ih,
          List.filter_cons_of_neg (by simpa using hk)]

end KeepLastLemmas

theorem parse_columns_fst (cols : List String) :
    (parse_columns cols).1 = cols.filter (fun c => !c.endsWith "20") := by
  induction cols with
  | nil => rfl
  | cons c cs ih =>
    by_cases h : c.endsWith "20" = true
    · simp [parse_columns, h, List.filter_cons, ih]
    · simp only [Bool.not_eq_true] at h
      simp [parse_columns, h, List.filter_cons, ih]

theorem parse_columns_snd (cols : List String) :
    (parse_columns cols).2 = cols.filter (fun c => c.endsWith "20") := by
  induction cols with
  | nil => rfl
  | cons c cs ih =>
    by_cases h : c.endsWith "20" = true
    · simp [parse_columns, h, List.filter_cons, ih]
    · simp only [Bool.not_eq_true] at h
      simp [parse_columns, h, List.filter_cons, ih]

theorem parse_columns_count (cols : List String) (c : String) :
    cols.count c =
      (parse_columns cols).1.count c + (parse_columns cols).2.count c := by
  induction cols with
  | nil => rfl
  | cons x xs ih =>
    by_cases hp : x.endsWith "20" = true
    · simp only [parse_columns, hp, if_pos]
      by_cases hc : x = c <;> (simp [List.count_cons, hc, ih]; try omega)
    · simp only [parse_columns, hp, Bool.false_eq_true, if_neg, not_false_iff]
      by_cases hc : x = c <;> (simp [List.count_cons, hc, ih]; try omega)

theorem zip_concatMap {α β γ : Type} (f : α → List β) (g : α → List γ)
    (l : List α) (h : ∀ a ∈ l, (f a).length = (g a).length) :
    (concatMap f l).zip (concatMap g l) =
      concatMap (fun a => (f a).zip (g a)) l := by
  induction l with
  | nil => rfl
  | cons a as ih =>
    simp only [concatMap]
    rw [List.zip_append (h a (List.mem_cons_self a as)),
      ih (fun b hb => h b (List.mem_cons_of_mem a hb))]

theorem map_concatMap {α β γ : Type} (f : α → List β) (g : β → γ)
    (l : List α) :
    (concatMap f l).map g = concatMap (fun a => (f a).map g) l := by
  induction l with
  | nil => rfl
  | cons a as ih => simp only [concatMap, List.map_append, ih]

theorem scrape_county_loop_eq {α : Type} (fetch : String → Option α)
    (l : List String) :
    scrape_county_loop fetch l =
      (l.filterMap fetch, l.filter (fun c => (fetch c).isNone), l) := by
  induction l with
  | nil => rfl
  | cons c cs ih =>
    cases hf : fetch c <;>
      simp [scrape_county_loop, hf, List.filterMap_cons, List.filter_cons, ih]

theorem mem_appendColumns (a b : List String) (c : String) :
    c ∈ appendColumns a b ↔ c ∈ a ∨ c ∈ b := by
  unfold appendColumns
  rw [List.mem_append]
  constructor
  · rintro (hm | hm)
    · exact Or.inl hm
    · exact Or.inr (List.mem_filter.mp hm).1
  · rintro (hm | hm)
    · exact Or.inl hm
    · by_cases ha : c ∈ a
      · exact Or.inl ha
      · refine Or.inr (List.mem_filter.mpr ⟨hm, ?_⟩)
        simp [List.contains, List.elem_eq_mem, ha]

theorem contains_appendColumns (a b : List String) (c : String) :
    (appendColumns a b).contains c = (a.contains c || b.contains c) := by
  simp only [appendColumns, List.contains, List.elem_eq_mem]
  by_cases ha : c ∈ a
  · simp [ha]
  · simp [ha, List.mem_filter, List.contains, List.elem_eq_mem]

theorem melt_zip_general (ks : List String) (dl : List String)
    (v1 v2 v3 : Nat → String → Int) :
    ((concatMap (fun c => (List.range ks.length).map
        (fun i => (ks.getD i "", c, v1 i c))) dl).zip
      ((concatMap (fun c => (List.range ks.length).map
        (fun i => (ks.getD i "", c, v2 i c))) dl).zip
       (concatMap (fun c => (List.range ks.length).map
        (fun i => (ks.getD i "", c, v3 i c))) dl))).map
      (fun p => (p.1.1, p.1.2.1, p.1.2.2, p.2.1.2.2, p.2.2.2.2)) =
    concatMap (fun c => (List.range ks.length).map
      (fun i => (ks.getD i "", c, v1 i c, v2 i c, v3 i c))) dl := by
  rw [zip_concatMap _ _ dl (fun a _ => by simp)]
  rw [zip_concatMap _ _ dl (fun a _ => by simp)]
  rw [map_concatMap]
  congr 1
  funext c
  rw [List.zip_map', List.zip_map', List.map_map]
  rfl

/- ------------------------------------------------------------------ -/
/- Claim theorems                                                      -/
/- ------------------------------------------------------------------ -/

/-- C10: parse_columns partitions the column list into id_vars and dates, each
preserving the original order, together containing every column exactly once;
a column lands in the dates list exactly when its name ends with "20". -/
theorem c10_parse_columns (cols : List String) :
    (parse_columns cols).1 = cols.filter (fun c => !c.endsWith "20") ∧
    (parse_columns cols).2 = cols.filter (fun c => c.endsWith "20") ∧
    (∀ c, cols.count c =
      (parse_columns cols).1.count c + (parse_columns cols).2.count c) ∧
    (∀ c, c ∈ (parse_columns cols).2 ↔ c ∈ cols ∧ c.endsWith "20" = true) ∧
    (∀ c, c ∈ (parse_columns cols).1 ↔ c ∈ cols ∧ c.endsWith "20" = false) := by
  refine ⟨parse_columns_fst cols, parse_columns_snd cols,
    fun c => parse_columns_count cols c, ?_, ?_⟩
  · intro c
    rw [parse_columns_snd]
    simp [List.mem_filter]
  · intro c
    rw [parse_columns_fst]
    simp [List.mem_filter]

/-- C8: atoi reads a scraped numeric string with stray asterisks: "123*"
parses to 123. -/
theorem c8_atoi_strips_asterisks : atoi "123*" = some 123 := by
  decide

/-- C3: integer coercion maps the null marker to none (never to zero), maps an
integer-valued cell to that integer, and coerce_integer does this columnwise,
so the distinction between unknown and 0 survives coercion. -/
theorem c3_integrify_preserves_null :
    integrify none = none ∧
    integrify none ≠ some 0 ∧
    (∀ n : ℤ, integrify (some (n : ℚ)) = some n) ∧
    (∀ r : CountyRow,
      (coerce_integer { r with cases := none }).cases = none) ∧
    (∀ (r : CountyRow) (n : ℤ),
      (coerce_integer { r with cases := some (n : ℚ) }).cases = some n) := by
  have hint : ∀ n : ℤ, integrify (some (n : ℚ)) = some n := by
    intro n
    simp [integrify, truncRat, Rat.num_intCast, Rat.den_intCast, Int.tdiv_one]
  refine ⟨rfl, by simp [integrify], hint, ?_, ?_⟩
  · intro r
    simp [coerce_integer, integrify]
  · intro r n
    simp only [coerce_integer]
    exact hint n

/-- C1: the merged county output has exactly one row per (date, county) key
present in the concatenated input, the row kept for a key is the last
occurrence in concatenation order, and when a key occurs among the freshly
scraped records the kept row is that scraped occurrence (freshly scraped data
overrides historical data). -/
theorem c1_merge_dedup (prev scraped : List CountyRow) (k : Int × String) :
    ((merge_county_data prev scraped).countP
        (fun r => decide (countyRowKey r = k)) =
      if (prev ++ scraped).any (fun r => decide (countyRowKey r = k)) then 1
      else 0) ∧
    ((merge_county_data prev scraped).find?
        (fun r => decide (countyRowKey r = k)) =
      ((prev ++ scraped).filter (fun r => decide (countyRowKey r = k))).getLast?) ∧
    (scraped.any (fun r => decide (countyRowKey r = k)) = true →
      (merge_county_data prev scraped).find?
          (fun r => decide (countyRowKey r = k)) =
        (scraped.filter (fun r => decide (countyRowKey r = k))).getLast?) := by
  refine ⟨keepLast_countP countyRowKey (prev ++ scraped) k,
    keepLast_find countyRowKey (prev ++ scraped) k, ?_⟩
  intro hany
  have h2 := keepLast_find countyRowKey (prev ++ scraped) k
  rw [List.filter_append] at h2
  have hne : scraped.filter (fun r => decide (countyRowKey r = k)) ≠ [] := by
    rcases List.any_eq_true.mp hany with ⟨y, hy, hky⟩
    intro hnil
    have : y ∈ scraped.filter (fun r => decide (countyRowKey r = k)) :=
      List.mem_filter.mpr ⟨hy, hky⟩
    rw [hnil] at this
    exact (List.not_mem_nil y) this
  calc (merge_county_data prev scraped).find?
        (fun r => decide (countyRowKey r = k)) =
      (prev.filter (fun r => decide (countyRowKey r = k)) ++
        scraped.filter (fun r => decide (countyRowKey r = k))).getLast? := h2
    _ = (scraped.filter (fun r => decide (countyRowKey r = k))).getLast? :=
      List.getLast?_append_of_ne_nil _ hne

/-- C4 (counterexample): the normalized observation date does not have the
same UTC time-of-day for every calendar day: March 7 2020 (standard time)
maps to 08:00 UTC while March 9 2020 (daylight time) maps to 07:00 UTC, two
valid days on opposite sides of the 2020 spring daylight-saving transition. -/
theorem c4_counterexample_dst :
    validDate2020 3 7 ∧ validDate2020 3 9 ∧
    utcTimeOfDay2020 3 7 = 480 ∧ utcTimeOfDay2020 3 9 = 420 ∧
    utcTimeOfDay2020 3 7 ≠ utcTimeOfDay2020 3 9 := by
  decide

/-- C4 (amended): for every calendar day of 2020, local midnight US/Pacific
maps to the UTC time-of-day 08:00 (480 minutes) while standard time is in
effect and 07:00 (420 minutes) while daylight time is in effect, so the UTC
instant-of-day is fixed only within each daylight-saving regime and shifts by
one hour across a transition. -/
theorem c4_amended_utc_offset (m d : Nat) (_h : validDate2020 m d) :
    utcTimeOfDay2020 m d = if pdtAtMidnight2020 m d then 420 else 480 := by
  unfold utcTimeOfDay2020 utcOfLocalMidnight2020 pacificOffsetMinutes2020
  by_cases hp : pdtAtMidnight2020 m d = true
  · rw [if_pos hp, if_pos hp]
    omega
  · rw [if_neg hp, if_neg hp]
    omega

/-- Witness for the amended C4 theorem at March 9 2020, a daylight-time day,
where local midnight maps to 07:00 UTC. -/
theorem c4_amended_utc_offset_witness : utcTimeOfDay2020 3 9 = 420 := by
  rw [c4_amended_utc_offset 3 9 (by decide)]
  decide

/-- C5: when the three wide tables have identical key lists and identical
date lists, the positional join of the three independently melted tables
produces, for each date column and each row position, one output row whose
cases, deaths and recovered values are the respective cells of the three
tables at that same (key, date). -/
theorem c5_positional_alignment (cs ds rs : WideTable)
    (hk1 : ds.keys = cs.keys) (hk2 : rs.keys = cs.keys)
    (hd1 : ds.dates = cs.dates) (_hd2 : rs.dates = cs.dates) :
    load_jhu_time_series cs ds rs =
      concatMap
        (fun c => (List.range cs.keys.length).map
          (fun i => (cs.keys.getD i "", c, cs.val i c, ds.val i c, rs.val i c)))
        cs.dates := by
  simp only [load_jhu_time_series, melt]
  rw [hk1, hk2, hd1]
  exact melt_zip_general cs.keys cs.dates cs.val ds.val rs.val

/-- Witness for C5 on concrete one-row tables: the joined row carries the
cases value of the cases table, the deaths value of the deaths table and the
recovered value of the recovered table. -/
theorem c5_positional_alignment_witness :
    load_jhu_time_series wtCases wtDeaths wtRecovered =
      [("Los Angeles, CA", "3/11/20", 27, 1, 0)] := by
  rw [c5_positional_alignment wtCases wtDeaths wtRecovered rfl rfl rfl rfl]
  rfl

/-- C6 (counterexample): when the first overwrite call of the state job's
publish tail raises, neither temporary file is deleted, refuting the claim
that the deletions happen unconditionally even when an overwrite fails. -/
theorem c6_counterexample_no_delete_on_raise :
    (runPubSteps
        (fun f => if f = "/tmp/jhu_covid19_time_series.csv" then
            CallOutcome.raise
          else CallOutcome.ok)
        (publish_tail "/tmp/jhu_covid19_time_series.csv"
          "/tmp/jhu_covid19_current.csv")).2.1 = [] ∧
    ([] : List String) ≠
      ["/tmp/jhu_covid19_time_series.csv", "/tmp/jhu_covid19_current.csv"] := by
  exact ⟨rfl, by simp⟩

/-- C6 (amended): the publish tail of a load job deletes the two temporary
files exactly on runs where both overwrite calls return without raising
(their returned status is never checked); when either overwrite raises, the
exception aborts the function and neither file is deleted. -/
theorem c6_amended_delete_iff_both_ok (f1 f2 : String)
    (outcome : String → CallOutcome) :
    (runPubSteps outcome (publish_tail f1 f2)).2.1 =
      if outcome f1 = CallOutcome.ok ∧ outcome f2 = CallOutcome.ok then
        [f1, f2]
      else [] := by
  cases h1 : outcome f1 <;> cases h2 : outcome f2 <;>
    simp [publish_tail, runPubSteps, h1, h2]

/-- C7: whatever each source does, every county fetcher is invoked exactly
once (no retry, no abort of siblings), each failing fetcher contributes one
warning and is omitted, the records returned are exactly those of the
fetchers that succeeded in source order; and at the top level both the county
job and the state job are started and no exception escapes load_data,
whatever either job does. -/
theorem c7_failure_isolation :
    (∀ (α : Type) (fetch : String → Option α),
      scrape_county_public_health_data fetch =
        (countyFetchers.filterMap fetch,
          countyFetchers.filter (fun c => (fetch c).isNone),
          countyFetchers)) ∧
    (∀ county state : CallOutcome, load_data county state = (2, false)) := by
  constructor
  · intro α fetch
    exact scrape_county_loop_eq fetch countyFetchers
  · intro c s
    cases c <;> cases s <;> rfl

/-- C9: for every pair of run dates, the scooter computing_stats body raises
AttributeError at the pd.real_sql attribute lookup, before any query is
issued and before anything is pushed; moreover its statement list contains no
xcom push and no return, so even absent the error the bound query result
would never leave the task. -/
theorem c9_real_sql_attribute_error (yesterday today : String) :
    ((runScooterSteps { queries := [], pushes := [] }
        (set_xcom_variables yesterday today)).2 =
      some "AttributeError: module pandas has no attribute real_sql") ∧
    ((runScooterSteps { queries := [], pushes := [] }
        (set_xcom_variables yesterday today)).1.queries = []) ∧
    ((runScooterSteps { queries := [], pushes := [] }
        (set_xcom_variables yesterday today)).1.pushes = []) ∧
    ((set_xcom_variables yesterday today).filter isPushOrReturn = []) := by
  have hattr : "real_sql" ∉ pandasAttrs := by decide
  refine ⟨?_, ?_, ?_, ?_⟩ <;>
    simp [set_xcom_variables, runScooterSteps, runScooterStep, hattr,
      isPushOrReturn, List.filter_cons]

/-- C2: for every previously published layer whose columns do not include
number_of_cases (in particular the documented county schema, which names the
column cases), the county job raises KeyError at the number_of_cases
subscript, after the merge and coercion steps but before any CSV is written
and before either feature layer is overwritten, so the run never updates the
county layers. -/
theorem c2_number_of_cases_keyerror (prevCols : List String)
    (h : prevCols.contains "number_of_cases" = false) :
    (load_county_covid_data prevCols).2 = some "KeyError: number_of_cases" ∧
    (load_county_covid_data prevCols).1.written = [] ∧
    (load_county_covid_data prevCols).1.overwritten = [] := by
  have hPrev : "number_of_cases" ∉ prevCols := by
    simp only [List.contains, List.elem_eq_mem, decide_eq_false_iff_not] at h
    exact h
  have hscraped : ∀ x ∈ coerceIntegerColumns, x ∈ scrapedFrameColumns := by
    decide
  have hallP : ∀ x ∈ coerceIntegerColumns,
      x ∈ appendColumns prevCols scrapedFrameColumns := by
    intro x hx
    exact (mem_appendColumns _ _ x).mpr (Or.inr (hscraped x hx))
  have hselP : "number_of_cases" ∉
      appendColumns (appendColumns prevCols scrapedFrameColumns)
        ["ca_total", "non_scag_total"] := by
    rw [mem_appendColumns, mem_appendColumns]
    rintro ((h1 | h2) | h3)
    · exact hPrev h1
    · revert h2
      decide
    · revert h3
      decide
  have hall : (coerceIntegerColumns.all
      fun c => (appendColumns prevCols scrapedFrameColumns).contains c) = true := by
    rw [List.all_eq_true]
    intro c hc
    simp [List.contains, List.elem_eq_mem, hallP c hc]
  have hsel : (appendColumns (appendColumns prevCols scrapedFrameColumns)
      ["ca_total", "non_scag_total"]).contains "number_of_cases" = false := by
    simp [List.contains, List.elem_eq_mem, hselP]
  refine ⟨?_, ?_, ?_⟩ <;>
    · simp only [load_county_covid_data, runCountySteps, runCountyStep]
      rw [if_pos hall]
      simp [hsel]
      rw [if_neg hselP]

/-- Witness for C2 at the documented county schema: running the county job on
a layer with the schema columns raises the KeyError. -/
theorem c2_number_of_cases_keyerror_witness :
    (load_county_covid_data columns).2 = some "KeyError: number_of_cases" :=
  (c2_number_of_cases_keyerror columns (by decide)).1

/-- Witness for C1 on one historical and one scraped row sharing the
(date, county) key: the merged output keeps the scraped row. -/
theorem c1_merge_dedup_witness :
    (merge_county_data [sampleHistoricalRow] [sampleScrapedRow]).find?
        (fun r => decide (countyRowKey r = ((0 : Int), "Los Angeles"))) =
      ([sampleScrapedRow].filter
        (fun r => decide (countyRowKey r = ((0 : Int), "Los Angeles")))).getLast? :=
  (c1_merge_dedup [sampleHistoricalRow] [sampleScrapedRow]
    ((0 : Int), "Los Angeles")).2.2 (by decide)
